import Mathlib

/-!
Verification of the NovasX influencer pricing and valuation engine.

This file is a shallow embedding, in Lean 4, of the computational core of the
repository: `pricing_module.py` (continuous piecewise-linear price curves, the
platform coefficient matrix and `get_price`) and `value_predictor.py`
(`BloggerValuePredictor.predict_value` and `AdMatrixGenerator`).

Modelling conventions:
- Python floats are idealised as rationals (ℚ); all reference-table constants
  are exact decimals, so every table value is represented exactly.
- Python exceptions (`ValueError`, `ZeroDivisionError`, `IndexError`) are
  modelled with an explicit `Except PyError` result.
- `np.log` and `np.sqrt` are transcendental; the functions that mention them
  take them as explicit function parameters (`lnq`, `sqrtq`).  Every theorem
  below quantifies over arbitrary such functions, because the code paths the
  theorems describe never evaluate them.
- Python `round(x, 2)` is modelled as round-half-to-even at two decimals.
-/

/-- Exceptions that the embedded Python code can raise. -/
inductive PyError where
  | valueError (msg : String)
  | zeroDivisionError
  | indexError
deriving DecidableEq, Repr

/-- One entry of `ContinuousPiecewiseFunction.segments`: the source stores
`(x1, x2, slope, intercept)` tuples.  The field `stop` is the source's `end`
(a Lean keyword). -/
structure Segment where
  start : ℚ
  stop : ℚ
  slope : ℚ
  intercept : ℚ
deriving DecidableEq, Repr

/-- Faithful embedding of `ContinuousPiecewiseFunction.__init__`
(pricing_module.py lines 7-17).  The loop computes, for each consecutive pair
of breakpoints, `slope = (y2 - y1) / (x2 - x1)` and
`intercept = y1 - slope * x1`; in Python the division raises
`ZeroDivisionError` when `x2 - x1 == 0`, and no other validation is performed:
fewer than two breakpoints simply produce an empty segment list. -/
def initSegments : List (ℚ × ℚ) → Except PyError (List Segment)
  | (x1, y1) :: (x2, y2) :: rest =>
    if x2 - x1 = 0 then .error .zeroDivisionError
    else
      match initSegments ((x2, y2) :: rest) with
      | .error e => .error e
      | .ok tail =>
        .ok ({ start := x1, stop := x2, slope := (y2 - y1) / (x2 - x1),
               intercept := y1 - (y2 - y1) / (x2 - x1) * x1 } :: tail)
  | _ => .ok []

/-- The same segment construction on the non-raising path (ℚ division is total
in Lean; this agrees with `initSegments` whenever no two consecutive
breakpoints share an x-value, which holds for every reference table below). -/
def mkSegments : List (ℚ × ℚ) → List Segment
  | (x1, y1) :: (x2, y2) :: rest =>
    { start := x1, stop := x2, slope := (y2 - y1) / (x2 - x1),
      intercept := y1 - (y2 - y1) / (x2 - x1) * x1 } :: mkSegments ((x2, y2) :: rest)
  | _ => []

/-- Faithful embedding of `ContinuousPiecewiseFunction.__call__`
(pricing_module.py lines 19-25): scan the segments in order for the one whose
half-open interval `[start, end)` contains `x`; if none matches, fall back to
the LAST segment's line.  On an empty segment list Python's `segments[-1]`
raises `IndexError`, modelled here by `none`. -/
def callSegments (segs : List Segment) (x : ℚ) : Option ℚ :=
  match segs.find? (fun s => decide (s.start ≤ x) && decide (x < s.stop)) with
  | some s => some (s.slope * x + s.intercept)
  | none =>
    match segs.getLast? with
    | some s => some (s.slope * x + s.intercept)
    | none => none

/-- Ordered string-keyed association-list lookup, modelling Python dict
indexing (`d[k]`, `k in d`, `d.get(k, default)`) for the literal dicts of the
source, whose keys are unique. -/
def lookupStr {α : Type} (key : String) : List (String × α) → Option α
  | [] => none
  | (k, v) :: rest => if k = key then some v else lookupStr key rest
def sannong_bps : List (ℚ × ℚ) :=
  [(0, 200), (60000, 6800), (300000, 15200), (750000, 32000), (3000000, 68000), (7500000, 250000), (20000000, 420000)]

/-- The 32 category base curves of `build_douyin_functions` (pricing_module.py lines 28-383). -/
def build_douyin_functions : List (String × List Segment) :=
  [("三农", mkSegments sannong_bps),
   ("二次元", mkSegments [(0, 300), (60000, 5500), (300000, 11200), (750000, 26000), (3000000, 45000), (7500000, 180000), (20000000, 260000)]),
   ("健康", mkSegments [(0, 500), (60000, 8000), (300000, 18000), (750000, 38000), (3000000, 110000), (7500000, 220000), (20000000, 350000)]),
   ("兴趣爱好", mkSegments [(0, 0), (60000, 6000), (300000, 15000), (750000, 35000), (3000000, 70000), (7500000, 150000), (20000000, 300000)]),
   ("其他", mkSegments [(0, 0), (60000, 7500), (300000, 16000), (750000, 30000), (3000000, 60000), (7500000, 140000), (20000000, 280000)]),
   ("医疗健康", mkSegments [(0, 1000), (60000, 8500), (300000, 20000), (750000, 45000), (3000000, 95000), (7500000, 200000), (20000000, 400000)]),
   ("娱乐", mkSegments [(0, 0), (60000, 5000), (300000, 12000), (750000, 25000), (3000000, 50000), (7500000, 100000), (20000000, 200000)]),
   ("家居家装", mkSegments [(0, 0), (60000, 10000), (300000, 21000), (750000, 52000), (3000000, 78000), (7500000, 120000), (20000000, 220000)]),
   ("幽默搞笑", mkSegments [(0, 0), (60000, 7000), (300000, 19000), (750000, 45000), (3000000, 90000), (7500000, 200000), (20000000, 400000)]),
   ("影视综艺", mkSegments [(0, 2500), (60000, 7000), (300000, 23500), (750000, 52500), (3000000, 126000), (7500000, 220000), (20000000, 400000)]),
   ("情感心理", mkSegments [(0, 500), (60000, 8500), (300000, 22000), (750000, 60000), (3000000, 110000), (7500000, 210000), (20000000, 450000)]),
   ("才艺技能", mkSegments [(0, 0), (60000, 9500), (300000, 25000), (750000, 50000), (3000000, 90000), (7500000, 160000), (20000000, 300000)]),
   ("教育培训", mkSegments [(0, 0), (60000, 8000), (300000, 22000), (750000, 45000), (3000000, 85000), (7500000, 180000), (20000000, 380000)]),
   ("文化", mkSegments [(0, 0), (60000, 6000), (300000, 18000), (750000, 40000), (3000000, 80000), (7500000, 160000), (20000000, 300000)]),
   ("旅游", mkSegments [(0, 0), (60000, 6500), (300000, 20000), (750000, 50000), (3000000, 95000), (7500000, 180000), (20000000, 450000)]),
   ("时事资讯", mkSegments [(0, 0), (60000, 7000), (300000, 18000), (750000, 40000), (3000000, 75000), (7500000, 140000), (20000000, 280000)]),
   ("时尚", mkSegments [(0, 1000), (60000, 9500), (300000, 35000), (750000, 75000), (3000000, 130000), (7500000, 250000), (20000000, 1000000)]),
   ("母婴育儿", mkSegments [(0, 0), (60000, 9000), (300000, 22000), (750000, 60000), (3000000, 95000), (7500000, 180000), (20000000, 360000)]),
   ("汽车", mkSegments [(0, 500), (60000, 8000), (300000, 32000), (750000, 98000), (3000000, 150000), (7500000, 220000), (20000000, 720000)]),
   ("游戏", mkSegments [(0, 200), (60000, 6500), (300000, 18000), (750000, 42000), (3000000, 75000), (7500000, 120000), (20000000, 220000)]),
   ("生活", mkSegments [(0, 500), (60000, 8500), (300000, 22000), (750000, 50000), (3000000, 95000), (7500000, 180000), (20000000, 400000)]),
   ("科学科普", mkSegments [(0, 0), (60000, 8000), (300000, 20000), (750000, 45000), (3000000, 85000), (7500000, 160000), (20000000, 320000)]),
   ("科技", mkSegments [(0, 500), (60000, 8500), (300000, 22000), (750000, 50000), (3000000, 95000), (7500000, 180000), (20000000, 400000)]),
   ("美妆", mkSegments [(0, 2000), (60000, 9500), (300000, 38000), (750000, 95000), (3000000, 145000), (7500000, 240000), (20000000, 880000)]),
   ("美容个护", mkSegments [(0, 0), (60000, 9000), (300000, 25000), (750000, 55000), (3000000, 100000), (7500000, 180000), (20000000, 380000)]),
   ("美食", mkSegments [(0, 0), (60000, 7500), (300000, 20000), (750000, 45000), (3000000, 85000), (7500000, 150000), (20000000, 350000)]),
   ("职场", mkSegments [(0, 0), (60000, 7000), (300000, 18000), (750000, 40000), (3000000, 75000), (7500000, 140000), (20000000, 280000)]),
   ("萌宠", mkSegments [(0, 500), (60000, 8500), (300000, 18000), (750000, 35000), (3000000, 65000), (7500000, 120000), (20000000, 240000)]),
   ("财经", mkSegments [(0, 500), (60000, 9500), (300000, 35000), (750000, 75000), (3000000, 160000), (7500000, 300000), (20000000, 1800000)]),
   ("运动健身", mkSegments [(0, 0), (60000, 7000), (300000, 20000), (750000, 55000), (3000000, 95000), (7500000, 170000), (20000000, 350000)]),
   ("音乐", mkSegments [(0, 0), (60000, 7500), (300000, 18000), (750000, 40000), (3000000, 80000), (7500000, 150000), (20000000, 300000)]),
   ("颜值", mkSegments [(0, 0), (60000, 8000), (300000, 20000), (750000, 45000), (3000000, 85000), (7500000, 160000), (20000000, 320000)])]

/-- COEFF_MATRIX (pricing_module.py lines 386-419): category -> platform -> coefficient. -/
def COEFF_MATRIX : List (String × List (String × ℚ)) :=
  [("三农", [("小红书", 5/10), ("B站", 3/10), ("快手", 18/10), ("抖音", 1)]),
   ("二次元", [("小红书", 7/10), ("B站", 22/10), ("快手", 4/10), ("抖音", 1)]),
   ("健康", [("小红书", 13/10), ("B站", 8/10), ("快手", 11/10), ("抖音", 1)]),
   ("兴趣爱好", [("小红书", 12/10), ("B站", 14/10), ("快手", 9/10), ("抖音", 1)]),
   ("其他", [("小红书", 8/10), ("B站", 9/10), ("快手", 1), ("抖音", 1)]),
   ("医疗健康", [("小红书", 1), ("B站", 6/10), ("快手", 13/10), ("抖音", 1)]),
   ("娱乐", [("小红书", 9/10), ("B站", 11/10), ("快手", 14/10), ("抖音", 1)]),
   ("家居家装", [("小红书", 18/10), ("B站", 5/10), ("快手", 1), ("抖音", 1)]),
   ("幽默搞笑", [("小红书", 7/10), ("B站", 1), ("快手", 16/10), ("抖音", 1)]),
   ("影视综艺", [("小红书", 8/10), ("B站", 17/10), ("快手", 9/10), ("抖音", 1)]),
   ("情感心理", [("小红书", 16/10), ("B站", 7/10), ("快手", 1), ("抖音", 1)]),
   ("才艺技能", [("小红书", 11/10), ("B站", 15/10), ("快手", 8/10), ("抖音", 1)]),
   ("教育培训", [("小红书", 1), ("B站", 16/10), ("快手", 6/10), ("抖音", 1)]),
   ("文化", [("小红书", 11/10), ("B站", 18/10), ("快手", 5/10), ("抖音", 1)]),
   ("旅游", [("小红书", 16/10), ("B站", 9/10), ("快手", 11/10), ("抖音", 1)]),
   ("时事资讯", [("小红书", 6/10), ("B站", 13/10), ("快手", 11/10), ("抖音", 1)]),
   ("时尚", [("小红书", 19/10), ("B站", 8/10), ("快手", 12/10), ("抖音", 1)]),
   ("母婴育儿", [("小红书", 15/10), ("B站", 4/10), ("快手", 15/10), ("抖音", 1)]),
   ("汽车", [("小红书", 7/10), ("B站", 11/10), ("快手", 9/10), ("抖音", 1)]),
   ("游戏", [("小红书", 5/10), ("B站", 2), ("快手", 7/10), ("抖音", 1)]),
   ("生活", [("小红书", 13/10), ("B站", 1), ("快手", 15/10), ("抖音", 1)]),
   ("科学科普", [("小红书", 9/10), ("B站", 17/10), ("快手", 6/10), ("抖音", 1)]),
   ("科技", [("小红书", 6/10), ("B站", 18/10), ("快手", 8/10), ("抖音", 1)]),
   ("美妆", [("小红书", 2), ("B站", 6/10), ("快手", 1), ("抖音", 1)]),
   ("美容个护", [("小红书", 17/10), ("B站", 5/10), ("快手", 9/10), ("抖音", 1)]),
   ("美食", [("小红书", 15/10), ("B站", 1), ("快手", 14/10), ("抖音", 1)]),
   ("职场", [("小红书", 11/10), ("B站", 14/10), ("快手", 7/10), ("抖音", 1)]),
   ("萌宠", [("小红书", 12/10), ("B站", 11/10), ("快手", 14/10), ("抖音", 1)]),
   ("财经", [("小红书", 8/10), ("B站", 1), ("快手", 5/10), ("抖音", 1)]),
   ("运动健身", [("小红书", 11/10), ("B站", 9/10), ("快手", 1), ("抖音", 1)]),
   ("音乐", [("小红书", 1), ("B站", 15/10), ("快手", 11/10), ("抖音", 1)]),
   ("颜值", [("小红书", 14/10), ("B站", 1), ("快手", 13/10), ("抖音", 1)])]

/-- platform_params (value_predictor.py lines 10-15): platform -> (k, beta, fan_limit). -/
def platform_params : List (String × (ℚ × ℚ × ℚ)) :=
  [("抖音", (75/100, 12/10, 500)),
   ("小红书", (65/100, 1, 300)),
   ("B站", (55/100, 8/10, 200)),
   ("快手", (45/100, 6/10, 400))]

/-- label_params (value_predictor.py lines 18-51): label -> (alpha, gamma, delta). -/
def label_params : List (String × (ℚ × ℚ × ℚ)) :=
  [("三农", (45/100, 12/10, 6/10)),
   ("二次元", (50/100, 14/10, 7/10)),
   ("健康", (30/100, 8/10, 4/10)),
   ("兴趣爱好", (35/100, 9/10, 5/10)),
   ("其他", (25/100, 6/10, 3/10)),
   ("医疗健康", (32/100, 7/10, 5/10)),
   ("娱乐", (40/100, 11/10, 6/10)),
   ("家居家装", (38/100, 13/10, 7/10)),
   ("幽默搞笑", (42/100, 1, 5/10)),
   ("影视综艺", (35/100, 11/10, 6/10)),
   ("情感心理", (36/100, 1, 6/10)),
   ("才艺技能", (37/100, 11/10, 6/10)),
   ("教育培训", (33/100, 9/10, 5/10)),
   ("文化", (34/100, 9/10, 5/10)),
   ("旅游", (39/100, 12/10, 7/10)),
   ("时事资讯", (30/100, 7/10, 4/10)),
   ("时尚", (43/100, 15/10, 8/10)),
   ("母婴育儿", (40/100, 14/10, 7/10)),
   ("汽车", (38/100, 13/10, 8/10)),
   ("游戏", (45/100, 13/10, 7/10)),
   ("生活", (36/100, 1, 6/10)),
   ("科学科普", (35/100, 11/10, 6/10)),
   ("科技", (42/100, 14/10, 9/10)),
   ("美妆", (48/100, 16/10, 9/10)),
   ("美容个护", (45/100, 15/10, 8/10)),
   ("美食", (44/100, 14/10, 7/10)),
   ("职场", (37/100, 1, 6/10)),
   ("萌宠", (41/100, 12/10, 6/10)),
   ("财经", (39/100, 13/10, 8/10)),
   ("运动健身", (40/100, 12/10, 7/10)),
   ("音乐", (38/100, 11/10, 6/10)),
   ("颜值", (46/100, 13/10, 8/10))]

def douyin_matrix : List (String × List (String × ℤ)) :=
  [("1-10万", [("三农", 8), ("二次元", 5), ("健康", 6), ("兴趣爱好", 7), ("其他", 4), ("医疗健康", 5), ("娱乐", 12), ("家居家装", 8), ("幽默搞笑", 15), ("影视综艺", 9), ("情感心理", 12), ("才艺技能", 9), ("教育培训", 5), ("文化", 6), ("旅游", 9), ("时事资讯", 5), ("时尚", 20), ("母婴育儿", 12), ("汽车", 6), ("游戏", 8), ("生活", 15), ("科学科普", 5), ("科技", 8), ("美妆", 22), ("美容个护", 18), ("美食", 15), ("职场", 6), ("萌宠", 12), ("财经", 5), ("运动健身", 9), ("音乐", 10), ("颜值", 15)]),
   ("10-50万", [("三农", 12), ("二次元", 8), ("健康", 9), ("兴趣爱好", 10), ("其他", 6), ("医疗健康", 8), ("娱乐", 22), ("家居家装", 12), ("幽默搞笑", 30), ("影视综艺", 15), ("情感心理", 18), ("才艺技能", 15), ("教育培训", 8), ("文化", 9), ("旅游", 15), ("时事资讯", 8), ("时尚", 38), ("母婴育儿", 18), ("汽车", 9), ("游戏", 12), ("生活", 30), ("科学科普", 8), ("科技", 12), ("美妆", 45), ("美容个护", 38), ("美食", 30), ("职场", 9), ("萌宠", 18), ("财经", 8), ("运动健身", 15), ("音乐", 18), ("颜值", 30)]),
   ("50-100万", [("三农", 18), ("二次元", 13), ("健康", 15), ("兴趣爱好", 16), ("其他", 10), ("医疗健康", 12), ("娱乐", 45), ("家居家装", 18), ("幽默搞笑", 60), ("影视综艺", 30), ("情感心理", 38), ("才艺技能", 22), ("教育培训", 12), ("文化", 15), ("旅游", 30), ("时事资讯", 12), ("时尚", 75), ("母婴育儿", 38), ("汽车", 15), ("游戏", 18), ("生活", 60), ("科学科普", 12), ("科技", 18), ("美妆", 90), ("美容个护", 75), ("美食", 60), ("职场", 15), ("萌宠", 38), ("财经", 12), ("运动健身", 30), ("音乐", 38), ("颜值", 60)]),
   ("100-500万", [("三农", 35), ("二次元", 20), ("健康", 22), ("兴趣爱好", 25), ("其他", 15), ("医疗健康", 20), ("娱乐", 90), ("家居家装", 35), ("幽默搞笑", 120), ("影视综艺", 60), ("情感心理", 75), ("才艺技能", 38), ("教育培训", 22), ("文化", 22), ("旅游", 60), ("时事资讯", 20), ("时尚", 150), ("母婴育儿", 75), ("汽车", 22), ("游戏", 35), ("生活", 120), ("科学科普", 18), ("科技", 35), ("美妆", 180), ("美容个护", 150), ("美食", 120), ("职场", 22), ("萌宠", 75), ("财经", 18), ("运动健身", 60), ("音乐", 75), ("颜值", 120)]),
   ("500-1000万", [("三农", 55), ("二次元", 35), ("健康", 38), ("兴趣爱好", 40), ("其他", 25), ("医疗健康", 35), ("娱乐", 150), ("家居家装", 55), ("幽默搞笑", 230), ("影视综艺", 120), ("情感心理", 150), ("才艺技能", 75), ("教育培训", 38), ("文化", 38), ("旅游", 120), ("时事资讯", 35), ("时尚", 300), ("母婴育儿", 150), ("汽车", 38), ("游戏", 55), ("生活", 230), ("科学科普", 35), ("科技", 55), ("美妆", 370), ("美容个护", 300), ("美食", 230), ("职场", 38), ("萌宠", 150), ("财经", 35), ("运动健身", 120), ("音乐", 150), ("颜值", 230)]),
   ("1000万+", [("三农", 80), ("二次元", 50), ("健康", 60), ("兴趣爱好", 65), ("其他", 40), ("医疗健康", 55), ("娱乐", 220), ("家居家装", 80), ("幽默搞笑", 300), ("影视综艺", 180), ("情感心理", 200), ("才艺技能", 110), ("教育培训", 50), ("文化", 60), ("旅游", 150), ("时事资讯", 50), ("时尚", 400), ("母婴育儿", 200), ("汽车", 50), ("游戏", 80), ("生活", 280), ("科学科普", 50), ("科技", 80), ("美妆", 500), ("美容个护", 450), ("美食", 350), ("职场", 50), ("萌宠", 200), ("财经", 50), ("运动健身", 150), ("音乐", 200), ("颜值", 300)])]

def xiaohongshu_matrix : List (String × List (String × ℤ)) :=
  [("1-10万", [("三农", 5), ("二次元", 3), ("健康", 6), ("兴趣爱好", 5), ("其他", 3), ("医疗健康", 5), ("娱乐", 8), ("家居家装", 9), ("幽默搞笑", 6), ("影视综艺", 5), ("情感心理", 9), ("才艺技能", 6), ("教育培训", 5), ("文化", 5), ("旅游", 12), ("时事资讯", 4), ("时尚", 22), ("母婴育儿", 15), ("汽车", 5), ("游戏", 4), ("生活", 12), ("科学科普", 4), ("科技", 6), ("美妆", 30), ("美容个护", 22), ("美食", 18), ("职场", 5), ("萌宠", 9), ("财经", 4), ("运动健身", 12), ("音乐", 8), ("颜值", 18)]),
   ("10-50万", [("三农", 9), ("二次元", 6), ("健康", 12), ("兴趣爱好", 8), ("其他", 5), ("医疗健康", 9), ("娱乐", 15), ("家居家装", 18), ("幽默搞笑", 12), ("影视综艺", 9), ("情感心理", 18), ("才艺技能", 12), ("教育培训", 9), ("文化", 9), ("旅游", 22), ("时事资讯", 6), ("时尚", 45), ("母婴育儿", 30), ("汽车", 9), ("游戏", 6), ("生活", 22), ("科学科普", 6), ("科技", 12), ("美妆", 60), ("美容个护", 45), ("美食", 38), ("职场", 9), ("萌宠", 18), ("财经", 6), ("运动健身", 22), ("音乐", 15), ("颜值", 38)]),
   ("50-100万", [("三农", 15), ("二次元", 10), ("健康", 20), ("兴趣爱好", 12), ("其他", 8), ("医疗健康", 15), ("娱乐", 25), ("家居家装", 30), ("幽默搞笑", 20), ("影视综艺", 15), ("情感心理", 30), ("才艺技能", 20), ("教育培训", 15), ("文化", 15), ("旅游", 38), ("时事资讯", 10), ("时尚", 75), ("母婴育儿", 55), ("汽车", 15), ("游戏", 10), ("生活", 38), ("科学科普", 10), ("科技", 20), ("美妆", 100), ("美容个护", 75), ("美食", 60), ("职场", 15), ("萌宠", 30), ("财经", 10), ("运动健身", 38), ("音乐", 25), ("颜值", 60)]),
   ("100-500万", [("三农", 25), ("二次元", 15), ("健康", 35), ("兴趣爱好", 20), ("其他", 12), ("医疗健康", 25), ("娱乐", 45), ("家居家装", 55), ("幽默搞笑", 35), ("影视综艺", 25), ("情感心理", 55), ("才艺技能", 35), ("教育培训", 25), ("文化", 25), ("旅游", 75), ("时事资讯", 15), ("时尚", 150), ("母婴育儿", 90), ("汽车", 25), ("游戏", 15), ("生活", 75), ("科学科普", 15), ("科技", 35), ("美妆", 200), ("美容个护", 150), ("美食", 120), ("职场", 25), ("萌宠", 55), ("财经", 15), ("运动健身", 75), ("音乐", 45), ("颜值", 120)]),
   ("500-1000万", [("三农", 40), ("二次元", 25), ("健康", 60), ("兴趣爱好", 35), ("其他", 20), ("医疗健康", 40), ("娱乐", 80), ("家居家装", 90), ("幽默搞笑", 60), ("影视综艺", 40), ("情感心理", 90), ("才艺技能", 60), ("教育培训", 40), ("文化", 40), ("旅游", 120), ("时事资讯", 25), ("时尚", 250), ("母婴育儿", 150), ("汽车", 40), ("游戏", 25), ("生活", 120), ("科学科普", 25), ("科技", 60), ("美妆", 350), ("美容个护", 250), ("美食", 200), ("职场", 40), ("萌宠", 90), ("财经", 25), ("运动健身", 120), ("音乐", 80), ("颜值", 200)]),
   ("1000万+", [("三农", 60), ("二次元", 40), ("健康", 90), ("兴趣爱好", 55), ("其他", 30), ("医疗健康", 60), ("娱乐", 120), ("家居家装", 130), ("幽默搞笑", 90), ("影视综艺", 60), ("情感心理", 130), ("才艺技能", 90), ("教育培训", 60), ("文化", 60), ("旅游", 180), ("时事资讯", 40), ("时尚", 350), ("母婴育儿", 220), ("汽车", 60), ("游戏", 40), ("生活", 180), ("科学科普", 40), ("科技", 90), ("美妆", 500), ("美容个护", 380), ("美食", 300), ("职场", 60), ("萌宠", 130), ("财经", 40), ("运动健身", 180), ("音乐", 120), ("颜值", 300)])]

def bilibili_matrix : List (String × List (String × ℤ)) :=
  [("1-10万", [("三农", 4), ("二次元", 8), ("健康", 5), ("兴趣爱好", 6), ("其他", 3), ("医疗健康", 5), ("娱乐", 6), ("家居家装", 5), ("幽默搞笑", 7), ("影视综艺", 6), ("情感心理", 5), ("才艺技能", 6), ("教育培训", 5), ("文化", 6), ("旅游", 8), ("时事资讯", 4), ("时尚", 12), ("母婴育儿", 6), ("汽车", 5), ("游戏", 10), ("生活", 7), ("科学科普", 6), ("科技", 8), ("美妆", 15), ("美容个护", 12), ("美食", 10), ("职场", 5), ("萌宠", 7), ("财经", 5), ("运动健身", 8), ("音乐", 7), ("颜值", 10)]),
   ("10-50万", [("三农", 7), ("二次元", 15), ("健康", 9), ("兴趣爱好", 10), ("其他", 5), ("医疗健康", 8), ("娱乐", 12), ("家居家装", 9), ("幽默搞笑", 12), ("影视综艺", 12), ("情感心理", 9), ("才艺技能", 12), ("教育培训", 9), ("文化", 12), ("旅游", 15), ("时事资讯", 6), ("时尚", 22), ("母婴育儿", 12), ("汽车", 9), ("游戏", 18), ("生活", 12), ("科学科普", 12), ("科技", 15), ("美妆", 30), ("美容个护", 22), ("美食", 18), ("职场", 9), ("萌宠", 12), ("财经", 9), ("运动健身", 15), ("音乐", 12), ("颜值", 18)]),
   ("50-100万", [("三农", 12), ("二次元", 25), ("健康", 15), ("兴趣爱好", 16), ("其他", 8), ("医疗健康", 12), ("娱乐", 20), ("家居家装", 15), ("幽默搞笑", 20), ("影视综艺", 20), ("情感心理", 15), ("才艺技能", 20), ("教育培训", 15), ("文化", 20), ("旅游", 25), ("时事资讯", 10), ("时尚", 38), ("母婴育儿", 20), ("汽车", 15), ("游戏", 30), ("生活", 20), ("科学科普", 20), ("科技", 25), ("美妆", 55), ("美容个护", 38), ("美食", 30), ("职场", 15), ("萌宠", 20), ("财经", 15), ("运动健身", 25), ("音乐", 20), ("颜值", 30)]),
   ("100-500万", [("三农", 20), ("二次元", 45), ("健康", 25), ("兴趣爱好", 25), ("其他", 12), ("医疗健康", 20), ("娱乐", 35), ("家居家装", 25), ("幽默搞笑", 35), ("影视综艺", 35), ("情感心理", 25), ("才艺技能", 35), ("教育培训", 25), ("文化", 35), ("旅游", 45), ("时事资讯", 15), ("时尚", 75), ("母婴育儿", 35), ("汽车", 25), ("游戏", 55), ("生活", 35), ("科学科普", 35), ("科技", 45), ("美妆", 90), ("美容个护", 75), ("美食", 55), ("职场", 25), ("萌宠", 35), ("财经", 25), ("运动健身", 45), ("音乐", 35), ("颜值", 55)]),
   ("500-1000万", [("三农", 30), ("二次元", 70), ("健康", 40), ("兴趣爱好", 40), ("其他", 20), ("医疗健康", 35), ("娱乐", 60), ("家居家装", 40), ("幽默搞笑", 60), ("影视综艺", 60), ("情感心理", 40), ("才艺技能", 60), ("教育培训", 40), ("文化", 60), ("旅游", 70), ("时事资讯", 25), ("时尚", 120), ("母婴育儿", 60), ("汽车", 40), ("游戏", 90), ("生活", 60), ("科学科普", 60), ("科技", 70), ("美妆", 150), ("美容个护", 120), ("美食", 90), ("职场", 40), ("萌宠", 60), ("财经", 40), ("运动健身", 70), ("音乐", 60), ("颜值", 90)]),
   ("1000万+", [("三农", 50), ("二次元", 100), ("健康", 60), ("兴趣爱好", 65), ("其他", 30), ("医疗健康", 55), ("娱乐", 90), ("家居家装", 60), ("幽默搞笑", 90), ("影视综艺", 90), ("情感心理", 60), ("才艺技能", 90), ("教育培训", 60), ("文化", 90), ("旅游", 100), ("时事资讯", 40), ("时尚", 180), ("母婴育儿", 90), ("汽车", 60), ("游戏", 130), ("生活", 90), ("科学科普", 90), ("科技", 100), ("美妆", 220), ("美容个护", 180), ("美食", 130), ("职场", 60), ("萌宠", 90), ("财经", 60), ("运动健身", 100), ("音乐", 90), ("颜值", 130)])]

def kuaishou_matrix : List (String × List (String × ℤ)) :=
  [("1-10万", [("三农", 10), ("二次元", 6), ("健康", 8), ("兴趣爱好", 7), ("其他", 5), ("医疗健康", 6), ("娱乐", 15), ("家居家装", 8), ("幽默搞笑", 18), ("影视综艺", 10), ("情感心理", 12), ("才艺技能", 10), ("教育培训", 6), ("文化", 8), ("旅游", 12), ("时事资讯", 5), ("时尚", 22), ("母婴育儿", 15), ("汽车", 8), ("游戏", 10), ("生活", 15), ("科学科普", 6), ("科技", 8), ("美妆", 25), ("美容个护", 20), ("美食", 18), ("职场", 8), ("萌宠", 12), ("财经", 6), ("运动健身", 12), ("音乐", 10), ("颜值", 18)]),
   ("10-50万", [("三农", 18), ("二次元", 12), ("健康", 15), ("兴趣爱好", 12), ("其他", 8), ("医疗健康", 10), ("娱乐", 30), ("家居家装", 15), ("幽默搞笑", 38), ("影视综艺", 18), ("情感心理", 22), ("才艺技能", 18), ("教育培训", 12), ("文化", 15), ("旅游", 22), ("时事资讯", 8), ("时尚", 45), ("母婴育儿", 30), ("汽车", 15), ("游戏", 18), ("生活", 30), ("科学科普", 12), ("科技", 15), ("美妆", 50), ("美容个护", 40), ("美食", 38), ("职场", 15), ("萌宠", 22), ("财经", 12), ("运动健身", 22), ("音乐", 18), ("颜值", 38)]),
   ("50-100万", [("三农", 30), ("二次元", 20), ("健康", 25), ("兴趣爱好", 20), ("其他", 12), ("医疗健康", 16), ("娱乐", 55), ("家居家装", 25), ("幽默搞笑", 60), ("影视综艺", 30), ("情感心理", 38), ("才艺技能", 30), ("教育培训", 20), ("文化", 25), ("旅游", 38), ("时事资讯", 12), ("时尚", 75), ("母婴育儿", 55), ("汽车", 25), ("游戏", 30), ("生活", 55), ("科学科普", 20), ("科技", 25), ("美妆", 90), ("美容个护", 75), ("美食", 60), ("职场", 25), ("萌宠", 38), ("财经", 20), ("运动健身", 38), ("音乐", 30), ("颜值", 60)]),
   ("100-500万", [("三农", 60), ("二次元", 35), ("健康", 45), ("兴趣爱好", 35), ("其他", 20), ("医疗健康", 25), ("娱乐", 90), ("家居家装", 45), ("幽默搞笑", 120), ("影视综艺", 60), ("情感心理", 75), ("才艺技能", 60), ("教育培训", 35), ("文化", 45), ("旅游", 75), ("时事资讯", 20), ("时尚", 150), ("母婴育儿", 90), ("汽车", 45), ("游戏", 60), ("生活", 90), ("科学科普", 35), ("科技", 45), ("美妆", 180), ("美容个护", 150), ("美食", 120), ("职场", 45), ("萌宠", 75), ("财经", 35), ("运动健身", 75), ("音乐", 60), ("颜值", 120)]),
   ("500-1000万", [("三农", 100), ("二次元", 60), ("健康", 80), ("兴趣爱好", 60), ("其他", 35), ("医疗健康", 40), ("娱乐", 150), ("家居家装", 80), ("幽默搞笑", 200), ("影视综艺", 100), ("情感心理", 120), ("才艺技能", 100), ("教育培训", 60), ("文化", 80), ("旅游", 120), ("时事资讯", 35), ("时尚", 250), ("母婴育儿", 150), ("汽车", 80), ("游戏", 100), ("生活", 150), ("科学科普", 60), ("科技", 80), ("美妆", 300), ("美容个护", 250), ("美食", 200), ("职场", 80), ("萌宠", 120), ("财经", 60), ("运动健身", 120), ("音乐", 100), ("颜值", 200)]),
   ("1000万+", [("三农", 150), ("二次元", 90), ("健康", 120), ("兴趣爱好", 90), ("其他", 55), ("医疗健康", 65), ("娱乐", 220), ("家居家装", 120), ("幽默搞笑", 300), ("影视综艺", 150), ("情感心理", 180), ("才艺技能", 150), ("教育培训", 90), ("文化", 120), ("旅游", 180), ("时事资讯", 55), ("时尚", 350), ("母婴育儿", 220), ("汽车", 120), ("游戏", 150), ("生活", 220), ("科学科普", 90), ("科技", 120), ("美妆", 450), ("美容个护", 380), ("美食", 300), ("职场", 120), ("萌宠", 180), ("财经", 90), ("运动健身", 180), ("音乐", 150), ("颜值", 300)])]

/-- Module-level constant `DOUYIN_FUNCTIONS = build_douyin_functions()`
(pricing_module.py line 422). -/
def DOUYIN_FUNCTIONS : List (String × List Segment) := build_douyin_functions

/-- The 32 category names, in the internal definition order of
`DOUYIN_FUNCTIONS`. -/
def categoryNames : List String := DOUYIN_FUNCTIONS.map Prod.fst

/-- Faithful embedding of `get_price` (pricing_module.py lines 425-452):
category must be present in both `DOUYIN_FUNCTIONS` and `COEFF_MATRIX`
(otherwise `ValueError`); the base price is the category curve evaluated at
`followers` (with no validation of `followers`); the 影视综艺 celebrity flag
doubles the base price; the platform coefficient defaults to 1.0 when the
platform is absent from the category's row. -/
def get_price (platform category : String) (followers : ℚ) (is_celebrity : Bool) :
    Except PyError ℚ :=
  match lookupStr category DOUYIN_FUNCTIONS with
  | none => .error (.valueError ("不支持的标签：" ++ category))
  | some base_func =>
    match lookupStr category COEFF_MATRIX with
    | none => .error (.valueError ("未配置标签系数：" ++ category))
    | some coeffRow =>
      match callSegments base_func followers with
      | none => .error .indexError
      | some bp =>
        let base_price := if category = "影视综艺" ∧ is_celebrity = true then bp * 2 else bp
        let platform_coeff := (lookupStr platform coeffRow).getD 1
        .ok (base_price * platform_coeff)

/-- The base price of a category (spec §4.2 `basePrice`): the category's curve
of `DOUYIN_FUNCTIONS` evaluated at `followers`, exactly the quantity the
source computes at pricing_module.py lines 440-441 before any platform
adjustment. -/
def basePrice (category : String) (followers : ℚ) : Except PyError ℚ :=
  match lookupStr category DOUYIN_FUNCTIONS with
  | none => .error (.valueError ("不支持的标签：" ++ category))
  | some base_func =>
    match callSegments base_func followers with
    | none => .error .indexError
    | some bp => .ok bp

/-- Faithful embedding of `AdMatrixGenerator.get_fan_range`
(value_predictor.py lines 689-702): classify a follower count (in
ten-thousands) into one of the six half-open brackets. -/
def get_fan_range (fans : ℚ) : String :=
  if fans < 10 then "1-10万"
  else if fans < 50 then "10-50万"
  else if fans < 100 then "50-100万"
  else if fans < 500 then "100-500万"
  else if fans < 1000 then "500-1000万"
  else "1000万+"

/-- The rows of the DataFrame built by `AdMatrixGenerator.generate_matrix`
(value_predictor.py lines 656-687): the four platform blocks in order, each
contributing one row per fan range, tagged `(粉丝量级, 平台, counts)`. -/
def ad_matrix_rows : List (String × String × List (String × ℤ)) :=
  (douyin_matrix.map fun p => (p.1, "抖音", p.2)) ++
  (xiaohongshu_matrix.map fun p => (p.1, "小红书", p.2)) ++
  (bilibili_matrix.map fun p => (p.1, "B站", p.2)) ++
  (kuaishou_matrix.map fun p => (p.1, "快手", p.2))

/-- Faithful embedding of `AdMatrixGenerator.get_expected_ad_count`
(value_predictor.py lines 704-721): take the first matrix row matching both
the fan range and the platform (0 if the query is empty).  The DataFrame's
columns are 粉丝量级, 平台 and the 32 labels; the source then runs
`int(query_result[label].iloc[0])` when `label` is any of those columns, so
for the two metadata columns it parses the row's fan-range or platform STRING
and raises `ValueError`, while for the 32 label columns (carried by every
row, so the column test coincides with a per-row lookup) it parses the stored
numeric string; a label outside the columns yields 0. -/
def get_expected_ad_count (platform label : String) (fans : ℚ) :
    Except PyError ℤ :=
  let fan_range := get_fan_range fans
  match ad_matrix_rows.find? (fun r => r.1 == fan_range && r.2.1 == platform) with
  | none => .ok 0
  | some r =>
    if label = "粉丝量级" then
      .error (.valueError ("invalid literal for int() with base 10: " ++ r.1))
    else if label = "平台" then
      .error (.valueError ("invalid literal for int() with base 10: " ++ r.2.1))
    else .ok ((lookupStr label r.2.2).getD 0)

/-- Round-half-to-even to an integer, the rounding mode of Python `round`. -/
def roundHalfEven (q : ℚ) : ℤ :=
  let f := ⌊q⌋
  if q - f < 1/2 then f
  else if q - f > 1/2 then f + 1
  else if f % 2 = 0 then f else f + 1

/-- Python `round(x, 2)`: round half-to-even at two decimal places. -/
def round2 (q : ℚ) : ℚ := (roundHalfEven (q * 100) : ℚ) / 100

/-- Faithful embedding of `AdMatrixGenerator.calculate_development_ratio`
(value_predictor.py lines 723-741): 0 when the expected count is 0, otherwise
`round(actual_ads / expected_ads, 2)`; an exception raised by
`get_expected_ad_count` propagates to the caller. -/
def calculate_development_ratio (platform label : String) (fans : ℚ)
    (actual_ads : ℤ) : Except PyError ℚ :=
  match get_expected_ad_count platform label fans with
  | .error e => .error e
  | .ok expected_ads =>
    if expected_ads = 0 then .ok 0
    else .ok (round2 ((actual_ads : ℚ) / (expected_ads : ℚ)))

/-- Faithful embedding of `BloggerValuePredictor.get_single_ad_value`
(value_predictor.py lines 60-66): `round(0.1 * sqrt(fans) * gamma, 2)` with
`np.sqrt` abstracted as `sqrtq`.  The `platform` argument is unused, exactly
as in the source. -/
def get_single_ad_value (sqrtq : ℚ → ℚ) (platform label : String) (fans : ℚ) :
    Except PyError ℚ :=
  match lookupStr label label_params with
  | none => .error (.valueError "无效标签")
  | some lp => .ok (round2 (1/10 * sqrtq fans * lp.2.1))

/-- One iteration of the year loop of `BloggerValuePredictor.predict_value`
(value_predictor.py lines 113-133): project the follower count `ft` (custom
compound regime when a growth rate is given, otherwise the default
logarithmic model with `np.log` abstracted as `lnq`), look up the expected ad
count at `ft`, grow the ad price proportionally to relative follower growth
(Python raises `ZeroDivisionError` here when the initial follower count is
zero; an exception from the ad-count lookup, which runs first, propagates),
and take `revenue = nt * pt * 1.2`. -/
def predict_step (lnq : ℚ → ℚ) (platform label : String)
    (k alpha delta fans_in_wan single_ad_value : ℚ)
    (growth_rate : Option ℚ) (year : ℕ) :
    Except PyError (ℕ × ℚ × ℤ × ℚ) :=
  let ft : ℚ :=
    match growth_rate with
    | some g => fans_in_wan * (1 + g / 100) ^ year
    | none => fans_in_wan + k * lnq ((year : ℚ) + 1) * (1 + alpha)
  match get_expected_ad_count platform label ft with
  | .error e => .error e
  | .ok nt =>
    if fans_in_wan = 0 then .error .zeroDivisionError
    else
      let pt : ℚ := single_ad_value * (1 + (ft - fans_in_wan) / fans_in_wan * delta)
      let vt : ℚ := (nt : ℚ) * pt * (12/10)
      .ok (year, round2 ft, nt, round2 vt)

/-- The year loop of `predict_value`: results accumulate in order, and the
first raised exception aborts the whole call. -/
def predict_loop (lnq : ℚ → ℚ) (platform label : String)
    (k alpha delta fans_in_wan single_ad_value : ℚ) (growth_rate : Option ℚ) :
    List ℕ → Except PyError (List (ℕ × ℚ × ℤ × ℚ))
  | [] => .ok []
  | year :: rest =>
    match predict_step lnq platform label k alpha delta fans_in_wan
        single_ad_value growth_rate year with
    | .error e => .error e
    | .ok r =>
      match predict_loop lnq platform label k alpha delta fans_in_wan
          single_ad_value growth_rate rest with
      | .error e => .error e
      | .ok rs => .ok (r :: rs)

/-- Faithful embedding of `BloggerValuePredictor.predict_value`
(value_predictor.py lines 68-135): validate platform and label (`ValueError`
otherwise), derive the single-ad price via `get_single_ad_value` when the
caller omits it, convert `fans` to ten-thousands, then run the year loop.
The source's default `years` argument is `[1, 2, 3, 4, 5]`. -/
def predict_value (lnq sqrtq : ℚ → ℚ) (fans : ℚ) (platform label : String)
    (single_ad_value : Option ℚ) (years : List ℕ) (growth_rate : Option ℚ) :
    Except PyError (List (ℕ × ℚ × ℤ × ℚ)) :=
  match lookupStr platform platform_params with
  | none => .error (.valueError "无效平台")
  | some pp =>
    match lookupStr label label_params with
    | none => .error (.valueError "无效标签")
    | some lp =>
      match (match single_ad_value with
             | some v => Except.ok v
             | none => get_single_ad_value sqrtq platform label (fans / 10000)) with
      | .error e => .error e
      | .ok sav =>
        predict_loop lnq platform label pp.1 lp.1 lp.2.2 (fans / 10000) sav
          growth_rate years

/-- Evaluation of a nonempty curve never raises: either some segment's
half-open interval contains `x`, or the final fallback line is used. -/
lemma callSegments_of_ne_nil (segs : List Segment) (h : segs ≠ []) (x : ℚ) :
    ∃ v, callSegments segs x = some v := by
  unfold callSegments
  cases hf : segs.find? (fun s => decide (s.start ≤ x) && decide (x < s.stop)) with
  | some s => exact ⟨_, rfl⟩
  | none =>
    cases hl : segs.getLast? with
    | some s => exact ⟨_, rfl⟩
    | none => exact absurd (List.getLast?_eq_none_iff.mp hl) h

/-- Every name of `categoryNames` has a curve in `DOUYIN_FUNCTIONS`, and that
curve has at least one segment. -/
lemma categoryNames_curves (category : String) (hc : category ∈ categoryNames) :
    ∃ segs, lookupStr category DOUYIN_FUNCTIONS = some segs ∧ segs ≠ [] := by
  fin_cases hc <;>
    exact ⟨_, rfl, by simp [sannong_bps, mkSegments]⟩

/-- Every name of `categoryNames` has a coefficient row in `COEFF_MATRIX`, and
the reference platform 抖音 has coefficient 1 in that row. -/
lemma categoryNames_coeff (category : String) (hc : category ∈ categoryNames) :
    ∃ row, lookupStr category COEFF_MATRIX = some row ∧
      lookupStr "抖音" row = some 1 := by
  fin_cases hc <;> exact ⟨_, rfl, rfl⟩

/-- C3: for category 三农 on the reference platform 抖音 (coefficient 1), the
price at 0 followers is exactly the first breakpoint's price 200, the price at
60,000 followers is exactly the breakpoint value 6,800, and the price at
30,000 followers (the midpoint of the first segment, interpolated between
(0, 200) and (60000, 6800)) is exactly 3,500; the same values are returned by
the base curve itself. -/
theorem sannong_reference_prices :
    get_price "抖音" "三农" 0 false = .ok 200 ∧
    get_price "抖音" "三农" 60000 false = .ok 6800 ∧
    get_price "抖音" "三农" 30000 false = .ok 3500 ∧
    basePrice "三农" 0 = .ok 200 ∧
    basePrice "三农" 60000 = .ok 6800 ∧
    basePrice "三农" 30000 = .ok 3500 := by
  refine ⟨?_, ?_, ?_, ?_, ?_, ?_⟩ <;>
    · simp only [get_price, basePrice, DOUYIN_FUNCTIONS, build_douyin_functions,
        COEFF_MATRIX, lookupStr, sannong_bps, mkSegments, callSegments, List.find?]
      norm_num [lookupStr]
      try decide

/-- C9: every `x` contained in no segment's half-open interval `[start, end)`
— in particular every `x` below the first breakpoint, such as any negative
follower count, and every `x` at or beyond the last breakpoint — is evaluated
with the LAST segment's slope and intercept.  Concretely for 三农:
`value(-1) = 184999983/1250 = 147999.9864` (within 0.01 of 147999.99) while
`value(0) = 200`, and `value(20000000)` (the last breakpoint) is `420000`,
that breakpoint's price. -/
theorem call_outside_segments_uses_last :
    (∀ (segs : List Segment) (x : ℚ) (s : Segment),
        (∀ t ∈ segs, ¬(t.start ≤ x ∧ x < t.stop)) →
        segs.getLast? = some s →
        callSegments segs x = some (s.slope * x + s.intercept)) ∧
    callSegments (mkSegments sannong_bps) (-1) = some (184999983/1250) ∧
    |(184999983 : ℚ)/1250 - 14799999/100| < 1/100 ∧
    callSegments (mkSegments sannong_bps) 0 = some 200 ∧
    callSegments (mkSegments sannong_bps) 20000000 = some 420000 := by
  refine ⟨?_, ?_, ?_, ?_, ?_⟩
  · intro segs x s hall hlast
    have hfind : segs.find?
        (fun s => decide (s.start ≤ x) && decide (x < s.stop)) = none := by
      apply List.find?_eq_none.mpr
      intro t ht
      simpa using hall t ht
    unfold callSegments
    rw [hfind, hlast]
  · simp only [sannong_bps, mkSegments, callSegments, List.find?]
    norm_num
  · rw [abs_lt]
    constructor <;> norm_num
  · simp only [sannong_bps, mkSegments, callSegments, List.find?]
    norm_num
  · simp only [sannong_bps, mkSegments, callSegments, List.find?]
    norm_num

/-- Witness for `call_outside_segments_uses_last`: the general fallback clause
applied to the 三农 curve at `x = -1`, whose intervals all miss `-1`. -/
theorem call_outside_segments_uses_last_witness :
    callSegments (mkSegments sannong_bps) (-1) =
      some (((420000 - 250000 : ℚ) / (20000000 - 7500000)) * (-1) +
            (250000 - (420000 - 250000 : ℚ) / (20000000 - 7500000) * 7500000)) := by
  apply call_outside_segments_uses_last.1 (mkSegments sannong_bps) (-1)
    ⟨7500000, 20000000, (420000 - 250000 : ℚ) / (20000000 - 7500000),
     250000 - (420000 - 250000 : ℚ) / (20000000 - 7500000) * 7500000⟩
  · intro t ht
    revert ht
    simp only [sannong_bps, mkSegments, List.mem_cons, List.not_mem_nil, or_false]
    rintro (rfl | rfl | rfl | rfl | rfl | rfl) <;> norm_num
  · rfl

/-- C1 counterexample: `get_price` does not reject a negative follower count.
At `followers = -1` for 三农 on 抖音 it silently returns the extrapolated
price `184999983/1250 = 147999.9864` instead of failing. -/
theorem get_price_negative_not_rejected :
    get_price "抖音" "三农" (-1) false = .ok (184999983/1250) := by
  simp only [get_price, DOUYIN_FUNCTIONS, build_douyin_functions, COEFF_MATRIX,
    lookupStr, sannong_bps, mkSegments, callSegments, List.find?]
  norm_num [lookupStr]
  try decide

/-- C1 amended: neither `get_price` nor the curve evaluation validates
non-negativity; for every category of the table and every negative follower
count, `get_price` returns a silently extrapolated price (an `ok` value, never
an error). -/
theorem get_price_negative_silently_extrapolates (platform category : String)
    (x : ℚ) (hc : category ∈ categoryNames) (hx : x < 0) :
    ∃ v, get_price platform category x false = .ok v := by
  obtain ⟨segs, h1, hne⟩ := categoryNames_curves category hc
  obtain ⟨row, h2, _⟩ := categoryNames_coeff category hc
  obtain ⟨v, hcall⟩ := callSegments_of_ne_nil segs hne x
  unfold get_price
  simp only [h1, h2, hcall, Bool.false_eq_true, and_false, if_false]
  exact ⟨_, rfl⟩

/-- Witness for `get_price_negative_silently_extrapolates` at 三农, `x = -1`. -/
theorem get_price_negative_silently_extrapolates_witness :
    ∃ v, get_price "快手" "三农" (-1) false = .ok v :=
  get_price_negative_silently_extrapolates "快手" "三农" (-1)
    (by simp [categoryNames, DOUYIN_FUNCTIONS, build_douyin_functions])
    (by norm_num)

/-- Construction raises exactly when two consecutive breakpoints share an
x-value (the slope division by zero); no other input is rejected. -/
lemma initSegments_error_iff (bps : List (ℚ × ℚ)) :
    (∃ e, initSegments bps = .error e) ↔
      ¬ List.Chain' (fun p q : ℚ × ℚ => p.1 ≠ q.1) bps := by
  induction bps with
  | nil => simp [initSegments]
  | cons p t ih =>
    cases t with
    | nil => simp [initSegments]
    | cons q r =>
      obtain ⟨x1, y1⟩ := p
      obtain ⟨x2, y2⟩ := q
      rw [List.chain'_cons]
      by_cases hpq : x2 - x1 = 0
      · have hx : x1 = x2 := by linarith [sub_eq_zero.mp hpq]
        simp [initSegments, hpq, hx]
      · have hx : x1 ≠ x2 := fun h => hpq (by rw [h]; ring)
        cases htail : initSegments ((x2, y2) :: r) with
        | error e =>
          have h1 : ¬ List.Chain' (fun p q : ℚ × ℚ => p.1 ≠ q.1) ((x2, y2) :: r) :=
            ih.mp ⟨e, htail⟩
          simp [initSegments, hpq, htail, hx, h1]
        | ok tl =>
          have h1 : List.Chain' (fun p q : ℚ × ℚ => p.1 ≠ q.1) ((x2, y2) :: r) := by
            by_contra hcon
            obtain ⟨e, he⟩ := ih.mpr hcon
            rw [htail] at he
            exact Except.noConfusion he
          simp [initSegments, hpq, htail, hx, h1]

/-- When construction does raise, the exception is a `ZeroDivisionError`. -/
lemma initSegments_error_is_zeroDiv (bps : List (ℚ × ℚ)) (e : PyError)
    (h : initSegments bps = .error e) : e = .zeroDivisionError := by
  induction bps with
  | nil => simp [initSegments] at h
  | cons p t ih =>
    cases t with
    | nil => simp [initSegments] at h
    | cons q r =>
      obtain ⟨x1, y1⟩ := p
      obtain ⟨x2, y2⟩ := q
      by_cases hpq : x2 - x1 = 0
      · simp [initSegments, hpq] at h
        exact h.symm
      · cases htail : initSegments ((x2, y2) :: r) with
        | error e2 =>
          simp [initSegments, hpq, htail] at h
          exact ih (h ▸ htail)
        | ok tl =>
          simp [initSegments, hpq, htail] at h

/-- C2 counterexample: constructing a curve from fewer than 2 breakpoints does
NOT fail — it returns an empty segment list — and strictly decreasing x-values
also construct without any error. -/
theorem init_without_validation_counterexample :
    initSegments [((0 : ℚ), 200)] = .ok [] ∧
    (∃ s, initSegments [((1 : ℚ), 5), ((0 : ℚ), 7)] = .ok [s]) := by
  constructor
  · rfl
  · have h : ¬((0 : ℚ) - 1 = 0) := by norm_num
    exact ⟨⟨1, 0, ((7 : ℚ) - 5) / (0 - 1), 5 - ((7 : ℚ) - 5) / (0 - 1) * 1⟩, by
      simp only [initSegments, if_neg h]⟩

/-- C2 amended: `ContinuousPiecewiseFunction.__init__` performs no validation.
A breakpoint sequence with fewer than 2 entries constructs an empty (never
rejected) segment list; the only failing inputs are those with two
consecutive equal x-values, which raise `ZeroDivisionError` (from the slope
division) rather than a dedicated invalid-input error; in particular
non-increasing but pairwise distinct x-values construct successfully. -/
theorem initSegments_no_validation :
    (∀ bps : List (ℚ × ℚ), bps.length < 2 → initSegments bps = .ok []) ∧
    (∀ bps : List (ℚ × ℚ),
        (∃ e, initSegments bps = .error e) ↔
          ¬ List.Chain' (fun p q : ℚ × ℚ => p.1 ≠ q.1) bps) ∧
    (∀ (bps : List (ℚ × ℚ)) (e : PyError),
        initSegments bps = .error e → e = .zeroDivisionError) := by
  refine ⟨?_, initSegments_error_iff, initSegments_error_is_zeroDiv⟩
  intro bps h
  match bps with
  | [] => rfl
  | [p] => rfl
  | p :: q :: r => simp [List.length] at h; omega

/-- Witness for `initSegments_no_validation`: a single breakpoint constructs
successfully, and a duplicated x-value raises `ZeroDivisionError`. -/
theorem initSegments_no_validation_witness :
    initSegments [((0 : ℚ), 200)] = .ok [] ∧
    ((∃ e, initSegments [((0 : ℚ), 200), ((0 : ℚ), 300)] = .error e) ↔
      ¬ List.Chain' (fun p q : ℚ × ℚ => p.1 ≠ q.1)
        [((0 : ℚ), 200), ((0 : ℚ), 300)]) :=
  ⟨initSegments_no_validation.1 [((0 : ℚ), 200)] (by decide),
   initSegments_no_validation.2.1 [((0 : ℚ), 200), ((0 : ℚ), 300)]⟩

/-- Continuity relation between adjacent segments: the value of the left
segment's line at its right endpoint equals the value of the right segment's
line at its left endpoint. -/
def contRel (s t : Segment) : Prop :=
  s.slope * s.stop + s.intercept = t.slope * t.start + t.intercept

/-- Algebraic continuity of the construction: whenever consecutive breakpoints
have distinct x-values, every pair of adjacent derived segments satisfies
`contRel` exactly (both sides equal the shared breakpoint's y-value, because
slope and intercept are derived from the two endpoints). -/
lemma mkSegments_chain : ∀ bps : List (ℚ × ℚ),
    List.Chain' (fun p q : ℚ × ℚ => p.1 ≠ q.1) bps →
    List.Chain' contRel (mkSegments bps)
  | [] => fun _ => by simp [mkSegments]
  | [p] => fun _ => by simp [mkSegments]
  | (x1, y1) :: (x2, y2) :: rest => fun h => by
    have h1 : x1 ≠ x2 := (List.chain'_cons.mp h).1
    have h2 := (List.chain'_cons.mp h).2
    have ih := mkSegments_chain ((x2, y2) :: rest) h2
    have hne : x2 - x1 ≠ 0 := sub_ne_zero.mpr (Ne.symm h1)
    show List.Chain' contRel
      ({ start := x1, stop := x2, slope := (y2 - y1) / (x2 - x1),
         intercept := y1 - (y2 - y1) / (x2 - x1) * x1 } ::
        mkSegments ((x2, y2) :: rest))
    refine List.chain'_cons'.mpr ⟨?_, ih⟩
    intro s2 hs2
    cases rest with
    | nil => simp [mkSegments] at hs2
    | cons pr r =>
      obtain ⟨x3, y3⟩ := pr
      simp only [mkSegments, List.head?_cons, Option.mem_def,
        Option.some.injEq] at hs2
      subst hs2
      show (y2 - y1) / (x2 - x1) * x2 + (y1 - (y2 - y1) / (x2 - x1) * x1) =
        (y3 - y2) / (x3 - x2) * x2 + (y2 - (y3 - y2) / (x3 - x2) * x2)
      have hl : (y2 - y1) / (x2 - x1) * x2 + (y1 - (y2 - y1) / (x2 - x1) * x1)
          = (y2 - y1) / (x2 - x1) * (x2 - x1) + y1 := by ring
      rw [hl, div_mul_cancel₀ _ hne]
      ring

/-- C4: every one of the 32 category curves is continuous — for every pair of
adjacent segments sharing a boundary, the value approached from the left
segment equals the value approached from the right segment, exactly (hence in
particular within any floating tolerance such as 1e-6). -/
theorem curves_continuous :
    DOUYIN_FUNCTIONS.length = 32 ∧
    ∀ p ∈ DOUYIN_FUNCTIONS, List.Chain' contRel p.2 := by
  constructor
  · rfl
  · intro p hp
    have hbps : ∀ q ∈ DOUYIN_FUNCTIONS, ∃ bps, q.2 = mkSegments bps ∧
        List.Chain' (fun a b : ℚ × ℚ => a.1 ≠ b.1) bps := by
      intro q hq
      fin_cases hq <;>
        exact ⟨_, rfl, by norm_num [sannong_bps, List.chain'_cons]⟩
    obtain ⟨bps, heq, hch⟩ := hbps p hp
    rw [heq]
    exact mkSegments_chain bps hch

/-- Witness for `curves_continuous`: the 三农 curve is continuous at every
internal breakpoint. -/
theorem curves_continuous_witness :
    List.Chain' contRel (mkSegments sannong_bps) :=
  curves_continuous.2 ("三农", mkSegments sannong_bps) (List.mem_cons_self _ _)

/-- When the requested platform's coefficient in the category's row is 1 and
the celebrity flag is off, `get_price` coincides with the bare base price. -/
lemma get_price_coeff_one (platform category : String) (x : ℚ)
    (row : List (String × ℚ))
    (h2 : lookupStr category COEFF_MATRIX = some row)
    (h3 : lookupStr platform row = some 1) :
    get_price platform category x false = basePrice category x := by
  unfold get_price basePrice
  cases h1 : lookupStr category DOUYIN_FUNCTIONS with
  | none => rfl
  | some segs =>
    simp only [h2]
    cases hcall : callSegments segs x with
    | none => rfl
    | some bp =>
      simp [h3, Bool.false_eq_true]

/-- C5: coefficient neutrality.  For every one of the 32 categories and every
follower count ≥ 0, the price on the reference platform 抖音 (whose
coefficient is fixed at 1 in every row of `COEFF_MATRIX`) equals the
category's base price. -/
theorem douyin_price_equals_base (category : String)
    (hc : category ∈ categoryNames) (followers : ℚ) (hf : 0 ≤ followers) :
    get_price "抖音" category followers false = basePrice category followers := by
  obtain ⟨row, h2, h3⟩ := categoryNames_coeff category hc
  exact get_price_coeff_one "抖音" category followers row h2 h3

/-- Witness for `douyin_price_equals_base` at 美妆, 123,456 followers. -/
theorem douyin_price_equals_base_witness :
    get_price "抖音" "美妆" 123456 false = basePrice "美妆" 123456 :=
  douyin_price_equals_base "美妆"
    (by simp [categoryNames, DOUYIN_FUNCTIONS, build_douyin_functions])
    123456 (by norm_num)

/-- C6: asymmetric lookup policy of `get_price`.  A category absent from the
curve table is a hard `ValueError` for every platform and follower count,
while a platform absent from a known category's coefficient row is NOT an
error: the neutral coefficient 1 is used and the price returned equals the
category's base price. -/
theorem lookup_policy_asymmetric :
    (∀ (platform category : String) (x : ℚ) (celeb : Bool),
        lookupStr category DOUYIN_FUNCTIONS = none →
        get_price platform category x celeb =
          .error (.valueError ("不支持的标签：" ++ category))) ∧
    (∀ (platform category : String) (x : ℚ) (row : List (String × ℚ)),
        category ∈ categoryNames →
        lookupStr category COEFF_MATRIX = some row →
        lookupStr platform row = none →
        ∃ v, get_price platform category x false = .ok v ∧
          basePrice category x = .ok v) := by
  constructor
  · intro platform category x celeb h
    unfold get_price
    simp only [h]
  · intro platform category x row hc h2 h3
    obtain ⟨segs, h1, hne⟩ := categoryNames_curves category hc
    obtain ⟨v, hcall⟩ := callSegments_of_ne_nil segs hne x
    refine ⟨v, ?_, ?_⟩
    · unfold get_price
      simp [h1, h2, h3, hcall, Bool.false_eq_true]
    · unfold basePrice
      simp [h1, hcall]

/-- Witness for `lookup_policy_asymmetric`: the made-up category "星座" is a
hard error on 抖音, while the known category 三农 on the made-up platform
"微博" (absent from the coefficient row) yields the base price. -/
theorem lookup_policy_asymmetric_witness :
    get_price "抖音" "星座" 100 false =
      .error (.valueError ("不支持的标签：" ++ "星座")) ∧
    ∃ v, get_price "微博" "三农" 100 false = .ok v ∧
      basePrice "三农" 100 = .ok v :=
  ⟨lookup_policy_asymmetric.1 "抖音" "星座" 100 false rfl,
   lookup_policy_asymmetric.2 "微博" "三农" 100 _
     (by simp [categoryNames, DOUYIN_FUNCTIONS, build_douyin_functions])
     rfl rfl⟩

/-- A key of `label_params` is one of the 32 labels, hence neither of the
matrix DataFrame metadata column names. -/
lemma label_params_key_ne (label : String) (lp : ℚ × ℚ × ℚ)
    (hl : lookupStr label label_params = some lp) :
    label ≠ "粉丝量级" ∧ label ≠ "平台" := by
  constructor
  · rintro rfl
    rw [show lookupStr "粉丝量级" label_params = none from rfl] at hl
    exact Option.noConfusion hl
  · rintro rfl
    rw [show lookupStr "平台" label_params = none from rfl] at hl
    exact Option.noConfusion hl

/-- For any label other than the two metadata column names, the expected-count
lookup never raises. -/
lemma get_expected_ad_count_ok (platform label : String) (fans : ℚ)
    (h1 : label ≠ "粉丝量级") (h2 : label ≠ "平台") :
    ∃ n, get_expected_ad_count platform label fans = .ok n := by
  simp only [get_expected_ad_count]
  cases hfind : ad_matrix_rows.find?
      (fun r => r.1 == get_fan_range fans && r.2.1 == platform) with
  | none => exact ⟨0, rfl⟩
  | some r =>
    refine ⟨(lookupStr label r.2.2).getD 0, ?_⟩
    simp [h1, h2]

set_option maxHeartbeats 1600000 in
/-- C7 counterexample: `calculate_development_ratio` is not exception-free at
every input.  For `label = "粉丝量级"` — a metadata column of the matrix
DataFrame — with an existing 抖音 row, the source reaches
`int(query_result["粉丝量级"].iloc[0])`, i.e. `int("1-10万")`, which raises
`ValueError`; the exception propagates out of `calculate_development_ratio`
instead of a number being returned. -/
theorem development_ratio_metadata_label_raises :
    get_expected_ad_count "抖音" "粉丝量级" 5 =
      .error (.valueError ("invalid literal for int() with base 10: " ++
        "1-10万")) ∧
    calculate_development_ratio "抖音" "粉丝量级" 5 4 =
      .error (.valueError ("invalid literal for int() with base 10: " ++
        "1-10万")) :=
  ⟨rfl, rfl⟩

/-- C7 amended: for every label other than the two DataFrame metadata column
names 粉丝量级 and 平台 (in particular for all 32 content categories),
`calculate_development_ratio` raises no exception: it returns 0 whenever the
expected ad count for the platform/category/bracket is 0 (the
division-by-zero guard), and otherwise returns `actual / expected` rounded to
2 decimal places. -/
theorem development_ratio_guarded (platform label : String) (fans : ℚ)
    (actual_ads : ℤ) (h1 : label ≠ "粉丝量级") (h2 : label ≠ "平台") :
    (get_expected_ad_count platform label fans = .ok 0 →
      calculate_development_ratio platform label fans actual_ads = .ok 0) ∧
    (∀ n : ℤ, get_expected_ad_count platform label fans = .ok n → n ≠ 0 →
      calculate_development_ratio platform label fans actual_ads =
        .ok (round2 ((actual_ads : ℚ) / (n : ℚ)))) ∧
    (∃ q : ℚ, calculate_development_ratio platform label fans actual_ads =
      .ok q) := by
  refine ⟨?_, ?_, ?_⟩
  · intro h
    unfold calculate_development_ratio
    rw [h]
    simp
  · intro n hn hn0
    unfold calculate_development_ratio
    rw [hn]
    simp [hn0]
  · obtain ⟨n, hn⟩ := get_expected_ad_count_ok platform label fans h1 h2
    unfold calculate_development_ratio
    rw [hn]
    by_cases h : n = 0
    · exact ⟨0, by simp [h]⟩
    · exact ⟨round2 ((actual_ads : ℚ) / (n : ℚ)), by simp [h]⟩

/-- Witness for `development_ratio_guarded`: platform "微博" has no matrix
row, so the expected count is 0 and the ratio collapses to 0 for any actual
count; for 抖音·三农 in the lowest bracket the expected count is 8 and the
quotient formula applies. -/
theorem development_ratio_guarded_witness :
    calculate_development_ratio "微博" "三农" 5 4 = .ok 0 ∧
    calculate_development_ratio "抖音" "三农" 5 4 =
      .ok (round2 ((4 : ℚ) / ((8 : ℤ) : ℚ))) :=
  ⟨(development_ratio_guarded "微博" "三农" 5 4 (by decide) (by decide)).1 rfl,
   (development_ratio_guarded "抖音" "三农" 5 4 (by decide) (by decide)).2.1
     8 rfl (by decide)⟩

set_option maxHeartbeats 4000000 in
/-- With a user-supplied growth rate of 0, a nonzero initial follower count
and a non-raising ad-count lookup, each year of the prediction loop returns
the initial follower count (rounded), the expected ad count at that unchanged
follower count, and the constant revenue `count * price * 1.2`. -/
lemma predict_step_zero_growth (lnq : ℚ → ℚ) (platform label : String)
    (k alpha delta fiw sav : ℚ) (n : ℤ) (hfiw : fiw ≠ 0)
    (hn : get_expected_ad_count platform label fiw = .ok n) (year : ℕ) :
    predict_step lnq platform label k alpha delta fiw sav (some 0) year =
      .ok (year, round2 fiw, n, round2 ((n : ℚ) * sav * (12/10))) := by
  simp only [predict_step]
  rw [show fiw * (1 + (0 : ℚ) / 100) ^ year = fiw by ring]
  simp only [hn]
  rw [if_neg hfiw]
  norm_num

/-- C8: `predict_value` with growth rate 0, a positive initial follower
count, a recognised platform and label and an explicit single-ad price
returns the 5-year series in which every year's follower count equals the
(unchanged) initial count in ten-thousands, the ad count is the expected
count at that count and is the same every year, and the annual revenue is the
same in all 5 years. -/
theorem predict_value_zero_growth_flat (lnq sqrtq : ℚ → ℚ) (fans : ℚ)
    (platform label : String) (sav : ℚ) (pp lp : ℚ × ℚ × ℚ)
    (hp : lookupStr platform platform_params = some pp)
    (hl : lookupStr label label_params = some lp)
    (hf : 0 < fans) :
    ∃ n : ℤ, get_expected_ad_count platform label (fans / 10000) = .ok n ∧
      predict_value lnq sqrtq fans platform label (some sav) [1, 2, 3, 4, 5]
          (some 0) =
        .ok ([1, 2, 3, 4, 5].map fun year =>
          (year, round2 (fans / 10000), n,
           round2 ((n : ℚ) * sav * (12/10)))) := by
  obtain ⟨hm1, hm2⟩ := label_params_key_ne label lp hl
  obtain ⟨n, hn⟩ := get_expected_ad_count_ok platform label (fans / 10000) hm1 hm2
  have hfiw : fans / 10000 ≠ 0 := ne_of_gt (div_pos hf (by norm_num))
  refine ⟨n, hn, ?_⟩
  unfold predict_value
  simp only [hp, hl]
  simp only [predict_loop,
    predict_step_zero_growth lnq platform label pp.1 lp.1 lp.2.2 (fans / 10000)
      sav n hfiw hn, List.map]

/-- Witness for `predict_value_zero_growth_flat`: 50,000 followers of 三农 on
抖音 at an explicit price of 10, growth rate 0. -/
theorem predict_value_zero_growth_flat_witness :
    ∃ n : ℤ, get_expected_ad_count "抖音" "三农" ((50000 : ℚ) / 10000) =
        .ok n ∧
      predict_value id id 50000 "抖音" "三农" (some 10) [1, 2, 3, 4, 5]
          (some 0) =
        .ok ([1, 2, 3, 4, 5].map fun year =>
          (year, round2 ((50000 : ℚ) / 10000), n,
           round2 ((n : ℚ) * 10 * (12/10)))) :=
  predict_value_zero_growth_flat id id 50000 "抖音" "三农" 10
    (75/100, 12/10, 500) (45/100, 12/10, 6/10) rfl rfl (by norm_num)

/-- With a zero initial follower count (in ten-thousands), a custom growth
rate and a label outside the metadata column names, every iteration of the
prediction loop raises `ZeroDivisionError` at the ad-price division. -/
lemma predict_step_zero_fiw (lnq : ℚ → ℚ) (platform label : String)
    (k alpha delta sav g : ℚ)
    (h1 : label ≠ "粉丝量级") (h2 : label ≠ "平台") (year : ℕ) :
    predict_step lnq platform label k alpha delta 0 sav (some g) year =
      .error .zeroDivisionError := by
  simp only [predict_step]
  rw [show (0 : ℚ) * (1 + g / 100) ^ year = 0 by ring]
  obtain ⟨n, hn⟩ := get_expected_ad_count_ok platform label 0 h1 h2
  simp only [hn]
  simp

/-- C10: `predict_value` is not total at zero initial followers.  With
`fans = 0`, a recognised platform and label, an explicit single-ad price and
an explicit growth rate, the per-year ad-price formula divides by the initial
follower count and the call raises `ZeroDivisionError` instead of returning a
series. -/
theorem predict_value_zero_fans_raises (lnq sqrtq : ℚ → ℚ)
    (platform label : String) (sav g : ℚ) (pp lp : ℚ × ℚ × ℚ)
    (hp : lookupStr platform platform_params = some pp)
    (hl : lookupStr label label_params = some lp) :
    predict_value lnq sqrtq 0 platform label (some sav) [1, 2, 3, 4, 5]
        (some g) = .error .zeroDivisionError := by
  obtain ⟨hm1, hm2⟩ := label_params_key_ne label lp hl
  unfold predict_value
  simp only [hp, hl]
  rw [show (0 : ℚ) / 10000 = 0 by norm_num]
  simp only [predict_loop,
    predict_step_zero_fiw lnq platform label pp.1 lp.1 lp.2.2 sav g hm1 hm2]

/-- Witness for `predict_value_zero_fans_raises`: 0 followers of 三农 on 抖音
with price 10 and growth rate 20. -/
theorem predict_value_zero_fans_raises_witness :
    predict_value id id 0 "抖音" "三农" (some 10) [1, 2, 3, 4, 5] (some 20) =
      .error .zeroDivisionError :=
  predict_value_zero_fans_raises id id "抖音" "三农" 10 20
    (75/100, 12/10, 500) (45/100, 12/10, 6/10) rfl rfl
